import Mathlib

/-!
Shallow embedding of `S2D_DetectControllers` from `src/src/controllers.c`.

The SDL environment is modelled as a fixed list of devices plus the
subsystem's last-error string.  Each SDL query made by the C code becomes a
field of `Device` / `SDLEnv`:

* `SDL_NumJoysticks()`            — `env.devices.length`
* `SDL_IsGameController(i)`       — `d.isGameController`
* `SDL_GameControllerOpen(i)`     — succeeds iff `d.controllerOpens`
* `SDL_GameControllerName(c)`     — `d.controllerName`
* `SDL_JoystickOpen(i)`           — succeeds iff `d.joystickOpens`
* `SDL_JoystickName/NumAxes/NumButtons/NumBalls` — the remaining fields
* `SDL_GetError()`                — `env.getError`

The observable output is a list of `Event`s: `Event.log m lvl` models
`S2D_Log(m, lvl)` (the `sprintf` into `S2D_msg` is composed into the message
string), and `Event.print m` models the direct `printf` used for the joystick
details block.  The SDL calls the function performs (opens; there are no
closes in the source) are modelled separately as a `SDLCall` trace, and the
handles it leaves open as a `Handle` list.
-/

inductive S2D_LogLevel
  | info
  | error
deriving DecidableEq

inductive Event
  | log (msg : String) (lvl : S2D_LogLevel)
  | print (msg : String)
deriving DecidableEq

structure Device where
  isGameController : Bool
  controllerOpens : Bool
  controllerName : String
  joystickOpens : Bool
  joystickName : String
  numAxes : Int
  numButtons : Int
  numBalls : Int
deriving DecidableEq

structure SDLEnv where
  devices : List Device
  getError : String
deriving DecidableEq

def SDL_NumJoysticks (env : SDLEnv) : Nat := env.devices.length

/-- The joystick details block printed via `printf` (controllers.c lines 43-47). -/
def joystickDetails (d : Device) : String :=
  "      Name: " ++ d.joystickName ++ "\n      Axes: " ++ toString d.numAxes ++
  "\n      Buttons: " ++ toString d.numButtons ++ "\n      Balls: " ++
  toString d.numBalls ++ "\n"

/-- One iteration of the enumeration loop body (controllers.c lines 23-54)
for device `d` at index `i`. -/
def processDevice (env : SDLEnv) (i : Nat) (d : Device) : List Event :=
  if d.isGameController then
    if d.controllerOpens then
      [Event.log ("Controller #" ++ toString i ++ ": " ++ d.controllerName ++ "\n")
        S2D_LogLevel.info]
    else
      [Event.log ("Could not open controller #" ++ toString i ++ ": " ++
          env.getError ++ "\n") S2D_LogLevel.error]
  else
    Event.log ("Generic controller #" ++ toString i) S2D_LogLevel.info ::
      (if d.joystickOpens then
        [Event.print (joystickDetails d)]
      else
        [Event.log ("Could not open generic controller #" ++ toString i)
          S2D_LogLevel.error])

/-- The `for` loop of controllers.c (lines 21-55), starting at index `i`
with the remaining devices `ds`. -/
def runFrom (env : SDLEnv) (i : Nat) : List Device → List Event
  | [] => []
  | d :: rest => processDevice env i d ++ runFrom env (i + 1) rest

/-- The summary block of controllers.c (lines 11-14): one info line when the
device count is positive, nothing otherwise. -/
def detectSummary (env : SDLEnv) : List Event :=
  if 0 < SDL_NumJoysticks env then
    [Event.log ("Controllers detected: " ++ toString (SDL_NumJoysticks env))
      S2D_LogLevel.info]
  else []

/-- The whole of `S2D_DetectControllers`: the summary block followed by the
enumeration loop over indices `0, 1, ...` in order. -/
def S2D_DetectControllers (env : SDLEnv) : List Event :=
  detectSummary env ++ runFrom env 0 env.devices

/-- The SDL open/close API surface available to controllers.c.  The source
calls `SDL_GameControllerOpen` and `SDL_JoystickOpen`; the close calls exist
in the API but are never made. -/
inductive SDLCall
  | openController (i : Nat)
  | openJoystick (i : Nat)
  | closeController (i : Nat)
  | closeJoystick (i : Nat)
deriving DecidableEq

def SDLCall.isClose : SDLCall → Bool
  | .closeController _ => true
  | .closeJoystick _ => true
  | _ => false

def SDLCall.index : SDLCall → Nat
  | .openController i => i
  | .openJoystick i => i
  | .closeController i => i
  | .closeJoystick i => i

/-- The open/close calls one loop iteration performs: exactly one open,
on the branch selected by the capability check. -/
def deviceCalls (i : Nat) (d : Device) : List SDLCall :=
  if d.isGameController then [SDLCall.openController i] else [SDLCall.openJoystick i]

def callsFrom (i : Nat) : List Device → List SDLCall
  | [] => []
  | d :: rest => deviceCalls i d ++ callsFrom (i + 1) rest

/-- The full open/close call trace of `S2D_DetectControllers`. -/
def detectCalls (env : SDLEnv) : List SDLCall := callsFrom 0 env.devices

/-- A device handle obtained from a successful open. -/
inductive Handle
  | controller (i : Nat)
  | joystick (i : Nat)
deriving DecidableEq

/-- The handles one loop iteration leaves open. -/
def deviceOpened (i : Nat) (d : Device) : List Handle :=
  if d.isGameController then
    (if d.controllerOpens then [Handle.controller i] else [])
  else
    (if d.joystickOpens then [Handle.joystick i] else [])

def openedFrom (i : Nat) : List Device → List Handle
  | [] => []
  | d :: rest => deviceOpened i d ++ openedFrom (i + 1) rest

/-- The handles left open after the first `k` loop iterations. -/
def openedAfter (env : SDLEnv) (k : Nat) : List Handle :=
  openedFrom 0 (env.devices.take k)

/-- Whether the single open attempt made for device `d` succeeds. -/
def openSucceeded (d : Device) : Bool :=
  if d.isGameController then d.controllerOpens else d.joystickOpens

def Event.isInfoLog : Event → Bool
  | .log _ .info => true
  | _ => false

def Event.isErrorLog : Event → Bool
  | .log _ .error => true
  | _ => false

def Event.isPrint : Event → Bool
  | .print _ => true
  | _ => false

def Event.message : Event → String
  | .log m _ => m
  | .print m => m

/-- Test whether `pat` is an initial segment of the character list. -/
def charsBegin : List Char → List Char → Bool
  | [], _ => true
  | _ :: _, [] => false
  | a :: as, b :: bs => a == b && charsBegin as bs

/-- Test whether `pat` occurs contiguously inside the character list. -/
def charsHave (pat : List Char) : List Char → Bool
  | [] => charsBegin pat []
  | c :: rest => charsBegin pat (c :: rest) || charsHave pat rest

/-- Test whether `pat` occurs as a substring of `s`. -/
def strContains (s pat : String) : Bool := charsHave pat.data s.data

lemma charsBegin_self_append (p t : List Char) : charsBegin p (p ++ t) = true := by
  induction p with
  | nil => rfl
  | cons a as ih => simp [charsBegin, ih]

lemma charsHave_self_append (p t : List Char) : charsHave p (p ++ t) = true := by
  cases p with
  | nil =>
    cases t with
    | nil => rfl
    | cons c r => simp [charsHave, charsBegin]
  | cons a as =>
    have h := charsBegin_self_append (a :: as) t
    simp only [List.cons_append] at h
    simp [charsHave, h]

lemma charsHave_append_left (p x r : List Char) (h : charsHave p r = true) :
    charsHave p (x ++ r) = true := by
  induction x with
  | nil => simpa using h
  | cons c cs ih => simp [charsHave, ih]

/-- To show `pat` occurs in `s`, exhibit the characters around it. -/
lemma strContains_of_data (s pat : String) (x y : List Char)
    (h : s.data = x ++ (pat.data ++ y)) : strContains s pat = true := by
  unfold strContains
  rw [h]
  exact charsHave_append_left _ _ _ (charsHave_self_append _ _)

lemma runFrom_append (env : SDLEnv) (s : Nat) (l1 l2 : List Device) :
    runFrom env s (l1 ++ l2) = runFrom env s l1 ++ runFrom env (s + l1.length) l2 := by
  induction l1 generalizing s with
  | nil => simp [runFrom]
  | cons d rest ih =>
    simp only [List.cons_append, runFrom, List.length_cons, List.append_eq]
    have h : s + (rest.length + 1) = s + 1 + rest.length := by omega
    rw [h, List.append_assoc, ih]

lemma runFrom_eq_bind (env : SDLEnv) (s : Nat) (ds : List Device) :
    runFrom env s ds = (List.enumFrom s ds).flatMap fun p => processDevice env p.1 p.2 := by
  induction ds generalizing s with
  | nil => simp [runFrom, List.enumFrom]
  | cons d rest ih => simp [runFrom, List.enumFrom, ih]

lemma callsFrom_append (s : Nat) (l1 l2 : List Device) :
    callsFrom s (l1 ++ l2) = callsFrom s l1 ++ callsFrom (s + l1.length) l2 := by
  induction l1 generalizing s with
  | nil => simp [callsFrom]
  | cons d rest ih =>
    simp only [List.cons_append, callsFrom, List.length_cons, List.append_eq]
    have h : s + (rest.length + 1) = s + 1 + rest.length := by omega
    rw [h, List.append_assoc, ih]

lemma openedFrom_append (s : Nat) (l1 l2 : List Device) :
    openedFrom s (l1 ++ l2) = openedFrom s l1 ++ openedFrom (s + l1.length) l2 := by
  induction l1 generalizing s with
  | nil => simp [openedFrom]
  | cons d rest ih =>
    simp only [List.cons_append, openedFrom, List.length_cons, List.append_eq]
    have h : s + (rest.length + 1) = s + 1 + rest.length := by omega
    rw [h, List.append_assoc, ih]

/-- Splitting the device list at an index that holds device `d`. -/
lemma devices_split (l : List Device) (i : Nat) (d : Device) (h : l.get? i = some d) :
    l = l.take i ++ d :: l.drop (i + 1) := by
  rcases List.get?_eq_some.mp h with ⟨hi, hget⟩
  have hd : l.drop i = d :: l.drop (i + 1) := by
    rw [List.drop_eq_getElem_cons hi]
    rw [List.get_eq_getElem] at hget
    simp [hget]
  conv_lhs => rw [← List.take_append_drop i l]
  rw [hd]

/-- The loop output decomposes around the iteration for index `i`. -/
lemma runFrom_split (env : SDLEnv) (i : Nat) (d : Device)
    (h : env.devices.get? i = some d) :
    runFrom env 0 env.devices =
      runFrom env 0 (env.devices.take i) ++
        (processDevice env i d ++ runFrom env (i + 1) (env.devices.drop (i + 1))) := by
  rcases List.get?_eq_some.mp h with ⟨hi, _⟩
  have hlen : (env.devices.take i).length = i := by
    simp only [List.length_take]
    omega
  conv_lhs => rw [devices_split env.devices i d h]
  rw [runFrom_append, hlen]
  simp [runFrom]

example : S2D_DetectControllers ⟨[], "E"⟩ = [] := by decide

example :
    S2D_DetectControllers ⟨[⟨true, true, "Pad", false, "", 0, 0, 0⟩], "E"⟩ =
      [Event.log "Controllers detected: 1" S2D_LogLevel.info,
       Event.log "Controller #0: Pad\n" S2D_LogLevel.info] := by decide

example : strContains "Could not open controller #0: BOOM\n" "BOOM" = true := by decide

example : strContains "Could not open generic controller #0" "BOOM" = false := by decide

def envC2 : SDLEnv :=
  ⟨[⟨true, false, "", false, "", 0, 0, 0⟩,
    ⟨true, true, "PadTwo", false, "", 0, 0, 0⟩], "BOOM"⟩

def devC2 : Device := ⟨true, false, "", false, "", 0, 0, 0⟩

/-- Claim C2: a device whose controller open fails produces exactly one
error log line containing the index and the subsystem error string, and the
whole output still contains the iterations for every later index. -/
theorem C2_controller_open_failure (env : SDLEnv) (i : Nat) (d : Device)
    (h : env.devices.get? i = some d)
    (h1 : d.isGameController = true) (h2 : d.controllerOpens = false) :
    processDevice env i d =
      [Event.log ("Could not open controller #" ++ toString i ++ ": " ++
          env.getError ++ "\n") S2D_LogLevel.error] ∧
    strContains ("Could not open controller #" ++ toString i ++ ": " ++
        env.getError ++ "\n") (toString i) = true ∧
    strContains ("Could not open controller #" ++ toString i ++ ": " ++
        env.getError ++ "\n") env.getError = true ∧
    S2D_DetectControllers env =
      detectSummary env ++
        (runFrom env 0 (env.devices.take i) ++
          (processDevice env i d ++ runFrom env (i + 1) (env.devices.drop (i + 1)))) := by
  refine ⟨by simp [processDevice, h1, h2], ?_, ?_, ?_⟩
  · apply strContains_of_data _ _ ("Could not open controller #").data
      ((": " ++ env.getError ++ "\n").data)
    simp [String.data_append, List.append_assoc]
  · apply strContains_of_data _ _
      (("Could not open controller #" ++ toString i ++ ": ").data) (("\n").data)
    simp [String.data_append, List.append_assoc]
  · rw [S2D_DetectControllers, runFrom_split env i d h]

/-- Concrete run of `C2_controller_open_failure`: device 0 of `envC2` fails
to open as a controller. -/
theorem C2_witness :
    processDevice envC2 0 devC2 =
      [Event.log ("Could not open controller #" ++ toString 0 ++ ": " ++
          envC2.getError ++ "\n") S2D_LogLevel.error] ∧
    strContains ("Could not open controller #" ++ toString 0 ++ ": " ++
        envC2.getError ++ "\n") (toString 0) = true ∧
    strContains ("Could not open controller #" ++ toString 0 ++ ": " ++
        envC2.getError ++ "\n") envC2.getError = true ∧
    S2D_DetectControllers envC2 =
      detectSummary envC2 ++
        (runFrom envC2 0 (envC2.devices.take 0) ++
          (processDevice envC2 0 devC2 ++ runFrom envC2 (0 + 1) (envC2.devices.drop (0 + 1)))) :=
  C2_controller_open_failure envC2 0 devC2 rfl rfl rfl

def envC4 : SDLEnv := ⟨[⟨true, true, "PadFour", false, "", 0, 0, 0⟩], "E4"⟩

def envC4e : SDLEnv := ⟨[], "E4"⟩

/-- Claim C4: with zero devices nothing at all is logged (in particular no
summary line and no per-device lines); with a positive device count the
output starts with exactly one summary info line containing the count. -/
theorem C4_summary_line (env : SDLEnv) :
    (SDL_NumJoysticks env = 0 → S2D_DetectControllers env = []) ∧
    (0 < SDL_NumJoysticks env →
      S2D_DetectControllers env =
        Event.log ("Controllers detected: " ++ toString (SDL_NumJoysticks env))
          S2D_LogLevel.info :: runFrom env 0 env.devices ∧
      strContains ("Controllers detected: " ++ toString (SDL_NumJoysticks env))
        (toString (SDL_NumJoysticks env)) = true) := by
  constructor
  · intro h
    have hdev : env.devices = [] :=
      List.length_eq_zero.mp (by simpa [SDL_NumJoysticks] using h)
    simp [S2D_DetectControllers, detectSummary, SDL_NumJoysticks, hdev, runFrom]
  · intro h
    constructor
    · simp [S2D_DetectControllers, detectSummary, h]
    · apply strContains_of_data _ _ ("Controllers detected: ").data []
      simp [String.data_append]

/-- Concrete runs of `C4_summary_line`: the empty device list and a
one-device list. -/
theorem C4_witness :
    S2D_DetectControllers envC4e = [] ∧
    (S2D_DetectControllers envC4 =
      Event.log ("Controllers detected: " ++ toString (SDL_NumJoysticks envC4))
        S2D_LogLevel.info :: runFrom envC4 0 envC4.devices ∧
      strContains ("Controllers detected: " ++ toString (SDL_NumJoysticks envC4))
        (toString (SDL_NumJoysticks envC4)) = true) :=
  ⟨(C4_summary_line envC4e).1 rfl, (C4_summary_line envC4).2 (by decide)⟩

def envC3 : SDLEnv := ⟨[⟨false, false, "", true, "StickThree", 2, 8, 1⟩,
                        ⟨false, false, "", false, "", 0, 0, 0⟩], "E3"⟩

def devC3a : Device := ⟨false, false, "", true, "StickThree", 2, 8, 1⟩

def devC3b : Device := ⟨false, false, "", false, "", 0, 0, 0⟩

/-- Claim C3: a device lacking the controller capability yields exactly one
generic-device info line followed by exactly one further event, which is the
details report when the joystick opens and an error log line when it does
not — never both and never neither. -/
theorem C3_generic_branch (env : SDLEnv) (i : Nat) (d : Device)
    (h : d.isGameController = false) :
    processDevice env i d =
      Event.log ("Generic controller #" ++ toString i) S2D_LogLevel.info ::
        (if d.joystickOpens then [Event.print (joystickDetails d)]
         else [Event.log ("Could not open generic controller #" ++ toString i)
                 S2D_LogLevel.error]) ∧
    (processDevice env i d).length = 2 ∧
    ((processDevice env i d).drop 1).length = 1 ∧
    (d.joystickOpens = true →
      ((processDevice env i d).drop 1).all Event.isPrint = true ∧
      ((processDevice env i d).drop 1).all (fun e => !(Event.isErrorLog e)) = true) ∧
    (d.joystickOpens = false →
      ((processDevice env i d).drop 1).all Event.isErrorLog = true ∧
      ((processDevice env i d).drop 1).all (fun e => !(Event.isPrint e)) = true) := by
  cases hj : d.joystickOpens <;>
    simp [processDevice, h, hj, Event.isPrint, Event.isErrorLog]

/-- Concrete runs of `C3_generic_branch`: one generic device that opens as a
joystick and one that does not. -/
theorem C3_witness :
    (processDevice envC3 0 devC3a =
      Event.log ("Generic controller #" ++ toString 0) S2D_LogLevel.info ::
        (if devC3a.joystickOpens then [Event.print (joystickDetails devC3a)]
         else [Event.log ("Could not open generic controller #" ++ toString 0)
                 S2D_LogLevel.error]) ∧
      ((processDevice envC3 0 devC3a).drop 1).all Event.isPrint = true) ∧
    (processDevice envC3 1 devC3b =
      Event.log ("Generic controller #" ++ toString 1) S2D_LogLevel.info ::
        (if devC3b.joystickOpens then [Event.print (joystickDetails devC3b)]
         else [Event.log ("Could not open generic controller #" ++ toString 1)
                 S2D_LogLevel.error]) ∧
      ((processDevice envC3 1 devC3b).drop 1).all Event.isErrorLog = true) :=
  ⟨⟨(C3_generic_branch envC3 0 devC3a rfl).1,
    ((C3_generic_branch envC3 0 devC3a rfl).2.2.2.1 rfl).1⟩,
   ⟨(C3_generic_branch envC3 1 devC3b rfl).1,
    ((C3_generic_branch envC3 1 devC3b rfl).2.2.2.2 rfl).1⟩⟩

def envC9 : SDLEnv := ⟨[⟨false, false, "", false, "", 0, 0, 0⟩], "SDLERRNINE"⟩

def devC9 : Device := ⟨false, false, "", false, "", 0, 0, 0⟩

/-- Claim C9: the generic-joystick open-failure error line contains the
device index but is built without the subsystem's last-error string (its text
does not depend on it), unlike the controller open-failure line, which
appends that string. -/
theorem C9_generic_error_omits_error_string (env : SDLEnv) (i : Nat) (d : Device)
    (h1 : d.isGameController = false) (h2 : d.joystickOpens = false) :
    processDevice env i d =
      [Event.log ("Generic controller #" ++ toString i) S2D_LogLevel.info,
       Event.log ("Could not open generic controller #" ++ toString i)
         S2D_LogLevel.error] ∧
    strContains ("Could not open generic controller #" ++ toString i)
      (toString i) = true ∧
    (∀ s : String, processDevice ⟨env.devices, s⟩ i d = processDevice env i d) ∧
    (∀ d2 : Device, d2.isGameController = true → d2.controllerOpens = false →
      processDevice env i d2 =
        [Event.log ("Could not open controller #" ++ toString i ++ ": " ++
            env.getError ++ "\n") S2D_LogLevel.error] ∧
      strContains ("Could not open controller #" ++ toString i ++ ": " ++
          env.getError ++ "\n") env.getError = true) := by
  refine ⟨by simp [processDevice, h1, h2], ?_, ?_, ?_⟩
  · apply strContains_of_data _ _ ("Could not open generic controller #").data []
    simp [String.data_append]
  · intro s
    simp [processDevice, h1, h2]
  · intro d2 hg hc
    refine ⟨by simp [processDevice, hg, hc], ?_⟩
    apply strContains_of_data _ _
      (("Could not open controller #" ++ toString i ++ ": ").data) (("\n").data)
    simp [String.data_append, List.append_assoc]

/-- Concrete run of `C9_generic_error_omits_error_string`, together with the
concrete observation that the generic failure line indeed does not contain
the pending subsystem error string of `envC9`. -/
theorem C9_witness :
    (processDevice envC9 0 devC9 =
      [Event.log ("Generic controller #" ++ toString 0) S2D_LogLevel.info,
       Event.log ("Could not open generic controller #" ++ toString 0)
         S2D_LogLevel.error] ∧
      strContains ("Could not open generic controller #" ++ toString 0)
        (toString 0) = true) ∧
    strContains ("Could not open generic controller #" ++ toString 0)
      envC9.getError = false :=
  ⟨⟨(C9_generic_error_omits_error_string envC9 0 devC9 rfl rfl).1,
    (C9_generic_error_omits_error_string envC9 0 devC9 rfl rfl).2.1⟩,
   by decide⟩

lemma runFrom_all_ctrl (env : SDLEnv) (s : Nat) (ds : List Device)
    (h : ∀ d ∈ ds, d.isGameController = true ∧ d.controllerOpens = true) :
    runFrom env s ds = (List.enumFrom s ds).map fun p =>
      Event.log ("Controller #" ++ toString p.1 ++ ": " ++ p.2.controllerName ++ "\n")
        S2D_LogLevel.info := by
  induction ds generalizing s with
  | nil => simp [runFrom, List.enumFrom]
  | cons d rest ih =>
    have hd := h d (by simp)
    have hrest : ∀ x ∈ rest, x.isGameController = true ∧ x.controllerOpens = true :=
      fun x hx => h x (by simp [hx])
    simp [runFrom, List.enumFrom, processDevice, hd.1, hd.2, ih (s + 1) hrest]

def envC1 : SDLEnv := ⟨[⟨true, true, "PadOne", false, "", 0, 0, 0⟩], "E1"⟩

/-- Claim C1 as stated is false on the code: for the one-device list
`envC1` (its device supports the controller interface, opens successfully
and is named "PadOne") the function emits two info lines, not one, because
the "Controllers detected" summary is also an info line — and that summary
line does not contain the device's name. -/
theorem C1_counterexample :
    ((S2D_DetectControllers envC1).filter Event.isInfoLog).length = 2 ∧
    SDL_NumJoysticks envC1 = 1 ∧
    ¬ ((S2D_DetectControllers envC1).filter Event.isInfoLog).length =
        SDL_NumJoysticks envC1 ∧
    ¬ ((S2D_DetectControllers envC1).filter Event.isInfoLog).all
        (fun e => strContains (Event.message e) "PadOne") = true := by decide

/-- Claim C1 (amended): when every device supports the controller interface
and opens successfully, every emitted event is an info log line, there are
exactly N of them per device plus the single summary line when N > 0, and
for each device index the corresponding line containing the device's
declared name is in the output. -/
theorem C1_per_device_info_lines (env : SDLEnv)
    (h : ∀ d ∈ env.devices, d.isGameController = true ∧ d.controllerOpens = true) :
    ((S2D_DetectControllers env).filter Event.isInfoLog).length =
      SDL_NumJoysticks env + (if 0 < SDL_NumJoysticks env then 1 else 0) ∧
    (∀ e ∈ S2D_DetectControllers env, Event.isInfoLog e = true) ∧
    (∀ p ∈ List.enumFrom 0 env.devices,
      Event.log ("Controller #" ++ toString p.1 ++ ": " ++ p.2.controllerName ++ "\n")
          S2D_LogLevel.info ∈ S2D_DetectControllers env ∧
      strContains ("Controller #" ++ toString p.1 ++ ": " ++ p.2.controllerName ++ "\n")
        p.2.controllerName = true) := by
  have hrun := runFrom_all_ctrl env 0 env.devices h
  have hall : ∀ e ∈ S2D_DetectControllers env, Event.isInfoLog e = true := by
    intro e he
    rw [S2D_DetectControllers, hrun] at he
    rcases List.mem_append.mp he with hs | hm
    · by_cases h0 : 0 < SDL_NumJoysticks env <;> simp [detectSummary, h0] at hs
      rw [hs]
      rfl
    · rcases List.mem_map.mp hm with ⟨p, _, rfl⟩
      rfl
  refine ⟨?_, hall, ?_⟩
  · rw [List.filter_eq_self.mpr hall, S2D_DetectControllers, hrun]
    have hsum : (detectSummary env).length = if 0 < SDL_NumJoysticks env then 1 else 0 := by
      by_cases h0 : 0 < SDL_NumJoysticks env <;> simp [detectSummary, h0]
    rw [List.length_append, hsum]
    simp only [List.length_map, List.enumFrom_length, SDL_NumJoysticks]
    omega
  · intro p hp
    refine ⟨?_, ?_⟩
    · rw [S2D_DetectControllers, hrun]
      exact List.mem_append.mpr (Or.inr (List.mem_map.mpr ⟨p, hp, rfl⟩))
    · apply strContains_of_data _ _
        (("Controller #" ++ toString p.1 ++ ": ").data) (("\n").data)
      simp [String.data_append, List.append_assoc]

def envC1w : SDLEnv :=
  ⟨[⟨true, true, "PadA", false, "", 0, 0, 0⟩,
    ⟨true, true, "PadB", false, "", 0, 0, 0⟩], "E1"⟩

/-- Concrete run of `C1_per_device_info_lines` on a two-device list. -/
theorem C1_witness :
    ((S2D_DetectControllers envC1w).filter Event.isInfoLog).length =
      SDL_NumJoysticks envC1w + (if 0 < SDL_NumJoysticks envC1w then 1 else 0) ∧
    (∀ e ∈ S2D_DetectControllers envC1w, Event.isInfoLog e = true) :=
  ⟨(C1_per_device_info_lines envC1w (by decide)).1,
   (C1_per_device_info_lines envC1w (by decide)).2.1⟩

def envC5 : SDLEnv :=
  ⟨[⟨true, true, "PadFive", false, "", 0, 0, 0⟩,
    ⟨false, false, "", true, "StickFive", 3, 10, 0⟩], "E5"⟩

def envC5b : SDLEnv :=
  ⟨[⟨true, true, "PadFive", false, "", 0, 0, 0⟩,
    ⟨false, false, "", true, "StickFive", 3, 10, 0⟩], "E5"⟩

/-- Claim C5: the output is the summary followed by the per-device blocks in
ascending index order over `[0, count)` in a single pass, and any two runs
over the same fixed device list (and error state) produce identical
output. -/
theorem C5_order_and_determinism (env : SDLEnv) :
    S2D_DetectControllers env =
      detectSummary env ++
        (List.enumFrom 0 env.devices).flatMap (fun p => processDevice env p.1 p.2) ∧
    ∀ env2 : SDLEnv, env2.devices = env.devices → env2.getError = env.getError →
      S2D_DetectControllers env2 = S2D_DetectControllers env := by
  constructor
  · rw [S2D_DetectControllers, runFrom_eq_bind]
  · intro env2 hd he
    have h1 : env2 = env := by
      cases env2
      cases env
      simp only [SDLEnv.mk.injEq]
      exact ⟨hd, he⟩
    rw [h1]

/-- Concrete run of `C5_order_and_determinism`: two syntactically separate
but equal environments give the same output. -/
theorem C5_witness : S2D_DetectControllers envC5b = S2D_DetectControllers envC5 :=
  (C5_order_and_determinism envC5).2 envC5b rfl rfl

lemma callsFrom_map_index (s : Nat) (ds : List Device) :
    (callsFrom s ds).map SDLCall.index = List.range' s ds.length := by
  induction ds generalizing s with
  | nil => simp [callsFrom]
  | cons d rest ih =>
    cases hgc : d.isGameController <;>
      simp [callsFrom, deviceCalls, hgc, SDLCall.index, ih (s + 1), List.range']

/-- Claim C10: the enumeration performs exactly `count` loop iterations, one
open call per device, visiting indices `0, ..., count - 1`; the embedding of
the loop is a structurally recursive (hence terminating) function. -/
theorem C10_loop_runs_count_iterations (env : SDLEnv) :
    (detectCalls env).map SDLCall.index = List.range (SDL_NumJoysticks env) ∧
    (detectCalls env).length = SDL_NumJoysticks env := by
  have h := callsFrom_map_index 0 env.devices
  constructor
  · rw [detectCalls, h, SDL_NumJoysticks, List.range_eq_range']
  · have h2 := congrArg List.length h
    simpa [detectCalls, SDL_NumJoysticks] using h2

lemma callsFrom_no_close (s : Nat) (ds : List Device) :
    ∀ c ∈ callsFrom s ds, SDLCall.isClose c = false := by
  induction ds generalizing s with
  | nil => simp [callsFrom]
  | cons d rest ih =>
    intro c hc
    simp only [callsFrom] at hc
    rcases List.mem_append.mp hc with h1 | h2
    · cases hgc : d.isGameController <;> simp [deviceCalls, hgc] at h1 <;>
        (subst h1; rfl)
    · exact ih (s + 1) c h2

/-- Claim C8: no close call occurs anywhere in the call trace, and the list
of open handles only grows from one loop iteration to the next. -/
theorem C8_handles_never_closed (env : SDLEnv) :
    (∀ c ∈ detectCalls env, SDLCall.isClose c = false) ∧
    ∀ k : Nat, ∃ extra : List Handle,
      openedAfter env (k + 1) = openedAfter env k ++ extra := by
  constructor
  · exact callsFrom_no_close 0 env.devices
  · intro k
    refine ⟨openedFrom (0 + (env.devices.take k).length) env.devices[k]?.toList, ?_⟩
    rw [openedAfter, openedAfter, List.take_succ, openedFrom_append]

def envC6 : SDLEnv := ⟨[⟨false, false, "", false, "", 0, 0, 0⟩], "SDLERRSIX"⟩

/-- Claim C6 as stated is false on the code: in `envC6` the single device
fails to open (as a generic joystick), so exactly one error-severity line is
emitted, but that line does not contain the subsystem error text
"SDLERRSIX". -/
theorem C6_counterexample :
    ((S2D_DetectControllers envC6).filter Event.isErrorLog).length = 1 ∧
    ((S2D_DetectControllers envC6).filter Event.isErrorLog).all
      (fun e => !(strContains (Event.message e) envC6.getError)) = true := by decide

/-- Claim C6 (amended): each device triggers exactly one open attempt and no
close (no retry, and the function's only outcome channel is its log output);
a successful open never produces an error line, a failed open produces
exactly one error line, which carries the subsystem error text on the
controller path but not on the generic-joystick path. -/
theorem C6_two_outcomes_no_retry (env : SDLEnv) (i : Nat) (d : Device) :
    (deviceCalls i d).length = 1 ∧
    (∀ c ∈ deviceCalls i d, SDLCall.isClose c = false) ∧
    (openSucceeded d = true → (processDevice env i d).filter Event.isErrorLog = []) ∧
    (openSucceeded d = false →
      (processDevice env i d).filter Event.isErrorLog =
        [if d.isGameController then
           Event.log ("Could not open controller #" ++ toString i ++ ": " ++
               env.getError ++ "\n") S2D_LogLevel.error
         else
           Event.log ("Could not open generic controller #" ++ toString i)
             S2D_LogLevel.error]) ∧
    (d.isGameController = true → d.controllerOpens = false →
      strContains ("Could not open controller #" ++ toString i ++ ": " ++
          env.getError ++ "\n") env.getError = true) := by
  refine ⟨?_, ?_, ?_, ?_, ?_⟩
  · cases hgc : d.isGameController <;> simp [deviceCalls, hgc]
  · intro c hc
    cases hgc : d.isGameController <;> simp [deviceCalls, hgc] at hc <;>
      (subst hc; rfl)
  · intro hs
    cases hgc : d.isGameController
    · have hj : d.joystickOpens = true := by simpa [openSucceeded, hgc] using hs
      simp [processDevice, hgc, hj, Event.isErrorLog]
    · have hc : d.controllerOpens = true := by simpa [openSucceeded, hgc] using hs
      simp [processDevice, hgc, hc, Event.isErrorLog]
  · intro hs
    cases hgc : d.isGameController
    · have hj : d.joystickOpens = false := by simpa [openSucceeded, hgc] using hs
      simp [processDevice, hgc, hj, Event.isErrorLog]
    · have hc : d.controllerOpens = false := by simpa [openSucceeded, hgc] using hs
      simp [processDevice, hgc, hc, Event.isErrorLog]
  · intro _ _
    apply strContains_of_data _ _
      (("Could not open controller #" ++ toString i ++ ": ").data) (("\n").data)
    simp [String.data_append, List.append_assoc]

def envC6w : SDLEnv := ⟨[⟨true, false, "", false, "", 0, 0, 0⟩], "WSIX"⟩

def devC6w : Device := ⟨true, false, "", false, "", 0, 0, 0⟩

/-- Concrete run of `C6_two_outcomes_no_retry` on a failing controller
device. -/
theorem C6_witness :
    (deviceCalls 0 devC6w).length = 1 ∧
    ((processDevice envC6w 0 devC6w).filter Event.isErrorLog =
      [if devC6w.isGameController then
         Event.log ("Could not open controller #" ++ toString 0 ++ ": " ++
             envC6w.getError ++ "\n") S2D_LogLevel.error
       else
         Event.log ("Could not open generic controller #" ++ toString 0)
           S2D_LogLevel.error]) ∧
    strContains ("Could not open controller #" ++ toString 0 ++ ": " ++
        envC6w.getError ++ "\n") envC6w.getError = true :=
  ⟨(C6_two_outcomes_no_retry envC6w 0 devC6w).1,
   (C6_two_outcomes_no_retry envC6w 0 devC6w).2.2.2.1 rfl,
   (C6_two_outcomes_no_retry envC6w 0 devC6w).2.2.2.2 rfl rfl⟩

def envC7 : SDLEnv := ⟨[⟨false, false, "", true, "StickSeven", 2, 8, 0⟩], "E7"⟩

def devC7 : Device := ⟨false, false, "", true, "StickSeven", 2, 8, 0⟩

/-- Claim C7 as stated is false on the code: in `envC7` the successful
generic-joystick open emits its details report through `printf`, outside the
logging sink, so the output contains an event that is not a log line. -/
theorem C7_counterexample :
    (S2D_DetectControllers envC7).any Event.isPrint = true := by decide

lemma mem_runFrom_cases (env : SDLEnv) (s : Nat) (ds : List Device) (e : Event)
    (he : e ∈ runFrom env s ds) :
    (∃ m lv, e = Event.log m lv) ∨
    (∃ d ∈ ds, d.isGameController = false ∧ d.joystickOpens = true ∧
      e = Event.print (joystickDetails d)) := by
  induction ds generalizing s with
  | nil => simp [runFrom] at he
  | cons d rest ih =>
    simp only [runFrom] at he
    rcases List.mem_append.mp he with h1 | h2
    · cases hgc : d.isGameController
      · cases hj : d.joystickOpens
        · simp [processDevice, hgc, hj] at h1
          rcases h1 with h | h <;> (subst h; exact Or.inl ⟨_, _, rfl⟩)
        · simp [processDevice, hgc, hj] at h1
          rcases h1 with h | h
          · subst h; exact Or.inl ⟨_, _, rfl⟩
          · subst h; exact Or.inr ⟨d, by simp, hgc, hj, rfl⟩
      · cases hco : d.controllerOpens <;> simp [processDevice, hgc, hco] at h1 <;>
          (subst h1; exact Or.inl ⟨_, _, rfl⟩)
    · rcases ih (s + 1) h2 with h | ⟨d2, hd2, hx1, hx2, hx3⟩
      · exact Or.inl h
      · exact Or.inr ⟨d2, List.mem_cons_of_mem d hd2, hx1, hx2, hx3⟩

/-- Claim C7 (amended): every emitted event is either a log line sent to the
logging sink with a message and a severity, or the joystick details report of
some generic device of the list that opened successfully, which is printed
directly (outside the sink); there is no other output and no return value. -/
theorem C7_outputs_logs_plus_details (env : SDLEnv) :
    ∀ e ∈ S2D_DetectControllers env,
      (∃ m lv, e = Event.log m lv) ∨
      (∃ d ∈ env.devices, d.isGameController = false ∧ d.joystickOpens = true ∧
        e = Event.print (joystickDetails d)) := by
  intro e he
  rw [S2D_DetectControllers] at he
  rcases List.mem_append.mp he with hs | hm
  · left
    by_cases h0 : 0 < SDL_NumJoysticks env <;> simp [detectSummary, h0] at hs
    exact ⟨_, _, hs⟩
  · exact mem_runFrom_cases env 0 env.devices e hm

/-- Concrete run of `C7_outputs_logs_plus_details` at the details-report
event of `envC7`. -/
theorem C7_witness :
    (∃ m lv, Event.print (joystickDetails devC7) = Event.log m lv) ∨
    (∃ d ∈ envC7.devices, d.isGameController = false ∧ d.joystickOpens = true ∧
      Event.print (joystickDetails devC7) = Event.print (joystickDetails d)) :=
  C7_outputs_logs_plus_details envC7 (Event.print (joystickDetails devC7)) (by decide)
